import Mathlib

/-!
Verification of the marketsense ML prediction pipeline
(`src/ml-services/prediction_service.py`, `sentiment_service.py`,
`prediction_lambda.py`) against its natural-language specification.

The Python code is shallowly embedded over `ℚ`.  Floating point arithmetic
is idealised as exact rational arithmetic; `numpy.std` (an irrational
square root) and the PyTorch LSTM model are abstracted as explicit
parameters of the functions that consume them, since the surrounding
arithmetic treats both as opaque real inputs.
-/

namespace MarketSense

/-- Python's built-in `round` on a rational: round-half-to-even to the
nearest integer (banker's rounding), as in CPython. -/
def roundHalfEven (q : ℚ) : ℤ :=
  if q - (⌊q⌋ : ℚ) < 1/2 then ⌊q⌋
  else if 1/2 < q - (⌊q⌋ : ℚ) then ⌊q⌋ + 1
  else if ⌊q⌋ % 2 = 0 then ⌊q⌋ else ⌊q⌋ + 1

/-- Python's `round(q, ndigits)` for a nonnegative digit count. -/
def pyRound (ndigits : ℕ) (q : ℚ) : ℚ :=
  (roundHalfEven (q * 10 ^ ndigits) : ℚ) / 10 ^ ndigits

/-- A per-day sentiment observation: the `sentiment_score`, `news_count`
and `buzz_score` fields of the request payload. -/
structure SentimentPoint where
  sentiment_score : ℚ
  news_count : ℤ
  buzz_score : ℚ
  deriving DecidableEq, Repr

/-- A scaled 3-feature sentiment row `(score, news count, buzz score)`. -/
abbrev Feature3 := ℚ × ℚ × ℚ

/-- Python's `l[-n:]` for a positive constant `n`. -/
def lastN (n : ℕ) (l : List α) : List α :=
  l.drop (l.length - n)

/-- `numpy.mean` of a rational list (the sources only apply it to
non-empty lists; on `[]` this yields `0` by `ℚ`'s total division). -/
def qmean (l : List ℚ) : ℚ :=
  l.sum / (l.length : ℚ)

/-- The window length used throughout (`AdvancedStockPredictor.__init__`,
`sequence_length=30`). -/
def sequenceLength : ℕ := 30

/-- The neutral sentiment entry appended while padding
(`sentiment_service.prepare_enhanced_data`): score `0.0`, one news item,
buzz `1.0`. -/
def neutralSentiment : SentimentPoint :=
  { sentiment_score := 0, news_count := 1, buzz_score := 1 }

/-- The padding loop of `sentiment_service.prepare_enhanced_data`
(`for _ in range(missing_count): sentiment_data.append(...)`), with the
in-place mutation of the caller's list made explicit by returning the
final list value. -/
def padLoop : ℕ → List SentimentPoint → List SentimentPoint
  | 0, s => s
  | k + 1, s => padLoop k (s ++ [neutralSentiment])

/-- One row of the sentiment feature matrix
(`sentiment_service.prepare_enhanced_data`): the entry of the padded
list at index `i` when in range, else the neutral row `[0.0, 1, 1.0]`. -/
def sentimentFeatureRow (padded : List SentimentPoint) (i : ℕ) : Feature3 :=
  if h : i < padded.length then
    let s := padded.get ⟨i, h⟩
    (s.sentiment_score, (s.news_count : ℚ), s.buzz_score)
  else (0, 1, 1)

/-- Sentiment handling of `sentiment_service.prepare_enhanced_data`:
pad the caller's sentiment list with neutral entries up to the price
length when it is shorter, then build the 3-column feature matrix; with
no sentiment data every row is neutral.  Returns the feature matrix and
the (possibly mutated) sentiment list. -/
def sentimentFeatures (prices : List ℚ) (sentiment_data : List SentimentPoint) :
    List Feature3 × List SentimentPoint :=
  if sentiment_data ≠ [] then
    let padded :=
      if sentiment_data.length < prices.length then
        padLoop (prices.length - sentiment_data.length) sentiment_data
      else sentiment_data
    ((List.range prices.length).map (sentimentFeatureRow padded), padded)
  else (List.replicate prices.length (0, 1, 1), sentiment_data)

/-- Smallest element of a rational list (`0` on `[]`). -/
def listMin : List ℚ → ℚ
  | [] => 0
  | x :: xs => xs.foldl min x

/-- Largest element of a rational list (`0` on `[]`). -/
def listMax : List ℚ → ℚ
  | [] => 0
  | x :: xs => xs.foldl max x

/-- sklearn's `MinMaxScaler(feature_range=(0, 1)).fit_transform` on one
column: `(x - min) / (max - min)`.  For a constant column sklearn's
zero-range guard produces `0`, which agrees with `ℚ`'s `0 / 0 = 0`. -/
def scaleSeries (l : List ℚ) : List ℚ :=
  l.map (fun x => (x - listMin l) / (listMax l - listMin l))

/-- `MinMaxScaler.fit_transform` on the 3-column sentiment matrix:
independent min-max scaling of each column. -/
def scaleCols (rows : List Feature3) : List Feature3 :=
  let c1 := rows.map (fun r => r.1)
  let c2 := rows.map (fun r => r.2.1)
  let c3 := rows.map (fun r => r.2.2)
  rows.map (fun r =>
    ((r.1 - listMin c1) / (listMax c1 - listMin c1),
     (r.2.1 - listMin c2) / (listMax c2 - listMin c2),
     (r.2.2 - listMin c3) / (listMax c3 - listMin c3)))

/-- `sentiment_service.AdvancedStockPredictor.prepare_enhanced_data`:
pad/align sentiment to the price series, min-max scale both streams,
and slide a `sequenceLength` window over the scaled series
(`for i in range(self.sequence_length, len(scaled_prices))`), emitting
the price window, the sentiment window and the next scaled price as
target.  The source loop index `i` is written here as `j + sequenceLength`.
Returns `(X_price, X_sentiment, y, final sentiment list)`. -/
def prepare_enhanced_data (prices : List ℚ) (sentiment_data : List SentimentPoint) :
    List (List ℚ) × List (List Feature3) × List ℚ × List SentimentPoint :=
  let fp := sentimentFeatures prices sentiment_data
  let scaledPrices := scaleSeries prices
  let scaledSentiment := scaleCols fp.1
  let n := scaledPrices.length
  ((List.range (n - sequenceLength)).map
      (fun j => (scaledPrices.drop j).take sequenceLength),
   (List.range (n - sequenceLength)).map
      (fun j => (scaledSentiment.drop j).take sequenceLength),
   (List.range (n - sequenceLength)).map
      (fun j => scaledPrices.getD (j + sequenceLength) 0),
   fp.2)

/-- The insufficient-data guard of
`sentiment_service.AdvancedStockPredictor.train_enhanced_model`:
`if len(X_price) < 10: raise ValueError("Insufficient data for training")`.
`true` exactly when the training call raises. -/
def trainRaisesInsufficientData (prices : List ℚ)
    (sentiment_data : List SentimentPoint) : Bool :=
  (prepare_enhanced_data prices sentiment_data).1.length < 10

/-- `price_data_quality` of `calculate_enhanced_confidence`:
`min(1.0, len(prices) / 100)`. -/
def price_data_quality (prices : List ℚ) : ℚ :=
  min 1 ((prices.length : ℚ) / 100)

/-- `volatility_factor` of `calculate_enhanced_confidence`:
`max(0.2, 1.0 - (volatility / avg_price * 3))` where `avg_price` is the
mean of the last 30 prices. -/
def volatility_factor (prices : List ℚ) (volatility : ℚ) : ℚ :=
  max 0.2 (1 - volatility / qmean (lastN 30 prices) * 3)

/-- `sentiment_quality` of `calculate_enhanced_confidence`: coverage and
news-volume blend when sentiment is present, flat `0.3` otherwise. -/
def sentiment_quality (prices : List ℚ) (sentiment_data : List SentimentPoint) : ℚ :=
  if sentiment_data ≠ [] then
    let sentiment_coverage := min 1 ((sentiment_data.length : ℚ) / (prices.length : ℚ))
    let avg_news_count :=
      qmean ((lastN 7 sentiment_data).map (fun s => (s.news_count : ℚ)))
    let news_volume_factor := min 1 (avg_news_count / 10)
    sentiment_coverage * 0.7 + news_volume_factor * 0.3
  else 0.3

/-- `sentiment_service.AdvancedStockPredictor.calculate_enhanced_confidence`.
`volatility` is the caller-computed `np.std` of the recent prices,
abstracted here as a parameter because the square root is irrational. -/
def calculate_enhanced_confidence (prices : List ℚ)
    (sentiment_data : List SentimentPoint) (volatility : ℚ) : ℚ :=
  min 92 (max 35
    ((price_data_quality prices * 0.4 +
      volatility_factor prices volatility * 0.3 +
      sentiment_quality prices sentiment_data * 0.3) * 100))

/-- The confidence formula as the spec's §4.4 states it:
`clamp(100*(0.4*price_data_quality + 0.3*volatility_factor +
0.3*sentiment_quality), 35, 92)` (claim C3). -/
def specBaseConfidence (prices : List ℚ)
    (sentiment_data : List SentimentPoint) (volatility : ℚ) : ℚ :=
  min 92 (max 35
    (100 * (0.4 * price_data_quality prices +
            0.3 * volatility_factor prices volatility +
            0.3 * sentiment_quality prices sentiment_data)))

/-- `np.diff(prices)` inside `calculate_rsi`. -/
def priceDeltas (prices : List ℚ) : List ℚ :=
  List.zipWith (fun a b => b - a) prices prices.tail

/-- `gains = np.where(deltas > 0, deltas, 0)` inside `calculate_rsi`. -/
def deltaGains (prices : List ℚ) : List ℚ :=
  (priceDeltas prices).map (fun d => if 0 < d then d else 0)

/-- `losses = np.where(deltas < 0, -deltas, 0)` inside `calculate_rsi`. -/
def deltaLosses (prices : List ℚ) : List ℚ :=
  (priceDeltas prices).map (fun d => if d < 0 then -d else 0)

/-- `calculate_rsi` of `prediction_service.analyze_technical_indicators`
(14-period RSI over the price deltas). -/
def calculate_rsi (prices : List ℚ) : ℚ :=
  if 14 ≤ (deltaGains prices).length then
    if qmean (lastN 14 (deltaLosses prices)) = 0 then 100
    else 100 - 100 /
      (1 + qmean (lastN 14 (deltaGains prices)) / qmean (lastN 14 (deltaLosses prices)))
  else 50

/-- `sentiment_confidence_boost` of
`sentiment_service.AdvancedStockPredictor.predict_with_sentiment`:
`min(0.2, abs(mean of last-7 sentiment scores) * 0.3)` when sentiment is
present, else `0`. -/
def sentimentConfidenceBoost (sentiment_data : List SentimentPoint) : ℚ :=
  if sentiment_data ≠ [] then
    let recent_sentiment_strength :=
      |qmean ((lastN 7 sentiment_data).map (fun s => s.sentiment_score))|
    min 0.2 (recent_sentiment_strength * 0.3)
  else 0

/-- One generated forecast day of the response payload (the `date`
string is omitted: wall-clock dates are outside the embedding). -/
structure ForecastDay where
  predicted_price : ℚ
  upper_bound : ℚ
  lower_bound : ℚ
  confidence : ℚ
  sentiment_factor : ℚ
  deriving DecidableEq, Repr

/-- The result-generation loop of
`sentiment_service.AdvancedStockPredictor.predict_with_sentiment`
(the `for i in range(days_ahead)` block building `results`).
`volatility` abstracts `np.std(recent_prices[-30:])` and
`actual_predictions` the inverse-scaled model outputs, both parameters
because the model and the square root are opaque to the embedding. -/
def generateResults (recent_prices : List ℚ)
    (recent_sentiment_data : List SentimentPoint) (volatility : ℚ)
    (actual_predictions : List ℚ) (days_ahead : ℕ) : List ForecastDay :=
  let boost := sentimentConfidenceBoost recent_sentiment_data
  (List.range days_ahead).map (fun (i : ℕ) =>
    let time_decay := (0.95 : ℚ) ^ i
    let base_confidence :=
      calculate_enhanced_confidence recent_prices recent_sentiment_data volatility
        * time_decay + boost
    let confidence_bounds_factor := (1 - base_confidence / 100) * 2 + 1
    let p := actual_predictions.getD i 0
    { predicted_price := pyRound 2 p
      upper_bound := pyRound 2 (p * confidence_bounds_factor)
      lower_bound := pyRound 2 (p / confidence_bounds_factor)
      confidence := pyRound 1 base_confidence
      sentiment_factor := pyRound 1 (boost * 100) })

/-- `new_sentiment_seq[:, -1, 0] *= decay_factor`: multiply the
sentiment-score channel of the final window entry by `d`. -/
def decayLast (w : List Feature3) (d : ℚ) : List Feature3 :=
  w.dropLast ++ (match w.getLast? with
    | some (s, n, b) => [(s * d, n, b)]
    | none => [])

/-- Multiply the sentiment-score channel of the entry at index `idx`
by `d` (used to state what claim C7 describes, decaying the *last real*
entry rather than the final window slot). -/
def decayAt : List Feature3 → ℕ → ℚ → List Feature3
  | [], _, _ => []
  | (s, n, b) :: t, 0, d => (s * d, n, b) :: t
  | r :: t, i + 1, d => r :: decayAt t i d

/-- One iteration of the autoregressive forecast loop of
`predict_with_sentiment` (`for day in range(days_ahead)`), on the state
`(price window, sentiment window)`: query the model, slide the price
window (drop oldest, append the prediction), decay the sentiment-score
channel of the final sentiment entry by `0.9 ** (day + 1)`, then slide
the sentiment window (drop oldest, append the neutral `[0, 1, 1]`).
The PyTorch model is abstracted as the function parameter `model`. -/
def stepState (model : List ℚ → List Feature3 → ℚ) (day : ℕ)
    (st : List ℚ × List Feature3) : List ℚ × List Feature3 :=
  let next := model st.1 st.2
  (st.1.tail ++ [next],
   (decayLast st.2 ((0.9 : ℚ) ^ (day + 1))).tail ++ [(0, 1, 1)])

/-- The loop state after `i` iterations of `stepState` starting from
`st`. -/
def stateAfter (model : List ℚ → List Feature3 → ℚ)
    (st : List ℚ × List Feature3) : ℕ → List ℚ × List Feature3
  | 0 => st
  | i + 1 => stepState model i (stateAfter model st i)

/-- The step as claim C7 words it: at day `day` decay the sentiment
score of the *last real* entry, the one at index
`length - 1 - day` (real entries occupy the lowest indices after `day`
slides), then slide both windows. -/
def claimStepState (model : List ℚ → List Feature3 → ℚ) (day : ℕ)
    (st : List ℚ × List Feature3) : List ℚ × List Feature3 :=
  let next := model st.1 st.2
  (st.1.tail ++ [next],
   (decayAt st.2 (st.2.length - 1 - day) ((0.9 : ℚ) ^ (day + 1))).tail ++ [(0, 1, 1)])

/-- The loop state after `i` iterations of the step claim C7 describes. -/
def claimStateAfter (model : List ℚ → List Feature3 → ℚ)
    (st : List ℚ × List Feature3) : ℕ → List ℚ × List Feature3
  | 0 => st
  | i + 1 => claimStepState model i (claimStateAfter model st i)

/-- The response fields of the service entry points that the claims
refer to: the HTTP status code, the optional `success` flag of the JSON
body, the optional `error` message, and the forecast list.  Technical
indicators and metadata are not referenced by any claim and are
omitted. -/
structure Response where
  statusCode : ℕ
  success : Option Bool
  error : Option String
  predictions : List ForecastDay
  deriving DecidableEq, Repr

/-- `prediction_service.handler` (the Lambda handler at the top of
`prediction_service.py`), after JSON parsing: validate the price-data
length, then either run `train_and_predict_enhanced` (the full torch
pipeline, abstracted as the `trainOracle` parameter) when sentiment is
present, or return the hard-coded dummy forecast. -/
def prediction_service_handler
    (trainOracle : List ℚ → List SentimentPoint → ℕ → Response)
    (price_data : List ℚ) (sentiment_data : List SentimentPoint)
    (prediction_days : ℕ) : Response :=
  if price_data = [] ∨ price_data.length < 40 then
    { statusCode := 400
      success := some false
      error := some "Need at least 40 days of price data for LSTM training"
      predictions := [] }
  else if sentiment_data ≠ [] then
    trainOracle price_data sentiment_data prediction_days
  else
    { statusCode := 200
      success := some true
      error := none
      predictions := (List.range prediction_days).map (fun (i : ℕ) =>
        { predicted_price := 100 + (i : ℚ) * 2
          upper_bound := 100 + (i : ℚ) * 2 + 5
          lower_bound := 100 + (i : ℚ) * 2 - 5
          confidence := 75
          sentiment_factor := 0 }) }

/-- `sentiment_service.predict_price_enhanced_endpoint`, after JSON
parsing: requests with fewer than 40 price points get a 400 response
whose body is only `{'error': ...}` (no `success` field); otherwise the
result of `train_and_predict_enhanced` (abstracted as
`pipelineOracle`) is returned with status 200. -/
def predict_price_enhanced_endpoint
    (pipelineOracle : List ℚ → List SentimentPoint → ℕ → Response)
    (price_data : List ℚ) (sentiment_data : List SentimentPoint)
    (prediction_days : ℕ) : Response :=
  if price_data.length < 40 then
    { statusCode := 400
      success := none
      error := some "Need at least 40 days of price data for LSTM training"
      predictions := [] }
  else
    pipelineOracle price_data sentiment_data prediction_days

/-- The random draws consumed by `prediction_lambda.handler`, abstracted
as oracle values: the `random.random()` trend coin, the
`random.uniform(0.3, 1.2)` magnitude, and the per-day
`random.normalvariate` noise (its std argument folded into the oracle). -/
structure LambdaRng where
  rRandom : ℚ
  rUniform : ℚ
  rNoise : ℕ → ℚ

/-- The hard-coded `ticker_base_prices` table of
`prediction_lambda.handler`, with its `150.0` default. -/
def tickerBasePrice (ticker : String) : ℚ :=
  if ticker = "AAPL" then 175.42
  else if ticker = "MSFT" then 415.32
  else if ticker = "GOOGL" then 173.42
  else if ticker = "TSLA" then 193.57
  else if ticker = "NVDA" then 223.18
  else 150

/-- `prediction_lambda.handler`, after JSON parsing: it performs no
minimum-length validation of `price_data` and always builds a synthetic
forecast, returning status 200 with `success: true`.  Technical
indicators and the correlation block of the body are omitted (no claim
refers to them). -/
def prediction_lambda_handler (rng : LambdaRng) (ticker : String)
    (price_data : List ℚ) (sentiment_data : List SentimentPoint)
    (prediction_days : ℕ) : Response :=
  let recent_prices := lastN 30 price_data
  let base_price :=
    if price_data ≠ [] then
      if recent_prices ≠ [] then recent_prices.getLastD 0
      else tickerBasePrice ticker
    else tickerBasePrice ticker
  let trend_coin : ℚ := if (2 : ℚ)/5 < rng.rRandom then 1 else -1
  let sentiAvgFactorTrend :=
    if sentiment_data ≠ [] then
      let sentiment_scores := (lastN 7 sentiment_data).map (fun s => s.sentiment_score)
      let avg_sentiment :=
        if sentiment_scores ≠ [] then
          sentiment_scores.sum / (sentiment_scores.length : ℚ)
        else 0
      let trend_direction :=
        if (0.2 : ℚ) < avg_sentiment then (1 : ℚ)
        else if avg_sentiment < -(0.2 : ℚ) then -1
        else trend_coin
      (avg_sentiment, min 0.2 (|avg_sentiment| * 0.3) * 100, trend_direction)
    else ((0 : ℚ), (0 : ℚ), trend_coin)
  let sentiment_factor := sentiAvgFactorTrend.2.1
  let trend_magnitude := rng.rUniform * sentiAvgFactorTrend.2.2
  { statusCode := 200
    success := some true
    error := none
    predictions := (List.range prediction_days).map (fun (i : ℕ) =>
      let day_noise := rng.rNoise i
      let predicted_price :=
        base_price * (1 + trend_magnitude / 100) ^ (i + 1) + day_noise
      let confidence :=
        max 40 (85 - (i : ℚ) * 5) + sentiment_factor * (0.9 : ℚ) ^ i
      let confidence_bounds_factor := (1 - min confidence 90 / 100) * 2 + 1
      { predicted_price := pyRound 2 predicted_price
        upper_bound := pyRound 2 (predicted_price * confidence_bounds_factor)
        lower_bound := pyRound 2 (predicted_price / confidence_bounds_factor)
        confidence := pyRound 1 confidence
        sentiment_factor := pyRound 1 (sentiment_factor * (0.9 : ℚ) ^ i) }) }

/-! ### Helper lemmas -/

theorem roundHalfEven_ge_floor (q : ℚ) : ⌊q⌋ ≤ roundHalfEven q := by
  unfold roundHalfEven
  split_ifs <;> omega

theorem roundHalfEven_le_floor_add_one (q : ℚ) : roundHalfEven q ≤ ⌊q⌋ + 1 := by
  unfold roundHalfEven
  split_ifs <;> omega

theorem roundHalfEven_mono {x y : ℚ} (h : x ≤ y) :
    roundHalfEven x ≤ roundHalfEven y := by
  have hf : ⌊x⌋ ≤ ⌊y⌋ := Int.floor_le_floor h
  by_cases hfe : ⌊x⌋ = ⌊y⌋
  · have hr : x - (⌊x⌋ : ℚ) ≤ y - (⌊y⌋ : ℚ) := by
      rw [← hfe]; exact sub_le_sub_right h _
    unfold roundHalfEven
    rw [hfe]
    rw [hfe] at hr
    split_ifs with h1 h2 h3 h4 h5 h6 h7 h8 h9 h10 h11 <;>
      first
        | omega
        | (exfalso; linarith)
  · have h1 : ⌊x⌋ + 1 ≤ ⌊y⌋ := by omega
    exact le_trans (roundHalfEven_le_floor_add_one x)
      (le_trans h1 (roundHalfEven_ge_floor y))

theorem pyRound_mono (d : ℕ) {x y : ℚ} (h : x ≤ y) :
    pyRound d x ≤ pyRound d y := by
  unfold pyRound
  have hp : (0 : ℚ) < 10 ^ d := by positivity
  have h1 : x * 10 ^ d ≤ y * 10 ^ d :=
    mul_le_mul_of_nonneg_right h (le_of_lt hp)
  have h2 : roundHalfEven (x * 10 ^ d) ≤ roundHalfEven (y * 10 ^ d) :=
    roundHalfEven_mono h1
  exact div_le_div_of_nonneg_right (by exact_mod_cast h2) hp.le


theorem getD_range_map {α : Type} (f : ℕ → α) {n i : ℕ} (h : i < n) (d : α) :
    ((List.range n).map f).getD i d = f i := by
  rw [List.getD_eq_getElem?_getD, List.getElem?_map, List.getElem?_range h]
  rfl

theorem qmean_nonneg {l : List ℚ} (h : ∀ x ∈ l, 0 ≤ x) : 0 ≤ qmean l := by
  unfold qmean
  exact div_nonneg (List.sum_nonneg h) (by positivity)

theorem mem_lastN {α : Type} {n : ℕ} {l : List α} {x : α} (h : x ∈ lastN n l) :
    x ∈ l := by
  unfold lastN at h
  exact List.mem_of_mem_drop h

theorem le_cec (prices : List ℚ) (sentiment_data : List SentimentPoint)
    (volatility : ℚ) :
    35 ≤ calculate_enhanced_confidence prices sentiment_data volatility := by
  unfold calculate_enhanced_confidence
  exact le_min (by norm_num) (le_max_left _ _)

theorem cec_le (prices : List ℚ) (sentiment_data : List SentimentPoint)
    (volatility : ℚ) :
    calculate_enhanced_confidence prices sentiment_data volatility ≤ 92 :=
  min_le_left _ _

theorem boost_nonneg (sentiment_data : List SentimentPoint) :
    0 ≤ sentimentConfidenceBoost sentiment_data := by
  unfold sentimentConfidenceBoost
  split_ifs
  · exact le_min (by norm_num) (mul_nonneg (abs_nonneg _) (by norm_num))
  · exact le_refl 0

theorem boost_le (sentiment_data : List SentimentPoint) :
    sentimentConfidenceBoost sentiment_data ≤ 0.2 := by
  unfold sentimentConfidenceBoost
  split_ifs
  · exact min_le_left _ _
  · norm_num

theorem scaleSeries_length (l : List ℚ) : (scaleSeries l).length = l.length := by
  simp [scaleSeries]

theorem scaleCols_length (rows : List Feature3) :
    (scaleCols rows).length = rows.length := by
  simp [scaleCols]

theorem sentimentFeatures_fst_length (prices : List ℚ)
    (s : List SentimentPoint) :
    (sentimentFeatures prices s).1.length = prices.length := by
  unfold sentimentFeatures
  split_ifs <;> simp

theorem prepare_fst_eq (p : List ℚ) (s : List SentimentPoint) :
    (prepare_enhanced_data p s).1
      = (List.range (p.length - sequenceLength)).map
          (fun j => ((scaleSeries p).drop j).take sequenceLength) := by
  simp [prepare_enhanced_data, scaleSeries_length]

theorem prepare_snd_fst_eq (p : List ℚ) (s : List SentimentPoint) :
    (prepare_enhanced_data p s).2.1
      = (List.range (p.length - sequenceLength)).map
          (fun j => ((scaleCols (sentimentFeatures p s).1).drop j).take sequenceLength) := by
  simp [prepare_enhanced_data, scaleSeries_length]

theorem prepare_y_eq (p : List ℚ) (s : List SentimentPoint) :
    (prepare_enhanced_data p s).2.2.1
      = (List.range (p.length - sequenceLength)).map
          (fun j => (scaleSeries p).getD (j + sequenceLength) 0) := by
  simp [prepare_enhanced_data, scaleSeries_length]

theorem prepare_sentiment_eq (p : List ℚ) (s : List SentimentPoint) :
    (prepare_enhanced_data p s).2.2.2 = (sentimentFeatures p s).2 := by
  simp [prepare_enhanced_data]

theorem priceWindows_length (p : List ℚ) (s : List SentimentPoint)
    (h40 : 40 ≤ p.length) :
    ∀ w ∈ (prepare_enhanced_data p s).1, w.length = sequenceLength := by
  rw [prepare_fst_eq]
  intro w hw
  rcases List.mem_map.1 hw with ⟨j, hj, rfl⟩
  rw [List.mem_range] at hj
  rw [List.length_take, List.length_drop, scaleSeries_length]
  unfold sequenceLength at hj ⊢
  omega

theorem sentWindows_length (p : List ℚ) (s : List SentimentPoint)
    (h40 : 40 ≤ p.length) :
    ∀ w ∈ (prepare_enhanced_data p s).2.1, w.length = sequenceLength := by
  rw [prepare_snd_fst_eq]
  intro w hw
  rcases List.mem_map.1 hw with ⟨j, hj, rfl⟩
  rw [List.mem_range] at hj
  rw [List.length_take, List.length_drop, scaleCols_length,
    sentimentFeatures_fst_length]
  unfold sequenceLength at hj ⊢
  omega

theorem padLoop_eq_append (k : ℕ) (s : List SentimentPoint) :
    padLoop k s = s ++ List.replicate k neutralSentiment := by
  induction k generalizing s with
  | zero => simp [padLoop]
  | succ n ih =>
    have h : padLoop (n + 1) s = padLoop n (s ++ [neutralSentiment]) := rfl
    rw [h, ih, List.append_assoc]
    simp [List.replicate_succ]

/-! ### Claim theorems -/

/-- C3: for every non-empty price series and any sentiment series,
`calculate_enhanced_confidence` returns
`clamp(100 * (0.4 * price_data_quality + 0.3 * volatility_factor +
0.3 * sentiment_quality), 35, 92)`, with `sentiment_quality = 0.3` when
no sentiment data is present; in particular the result always lies in
`[35, 92]`. -/
theorem claim_C3 (prices : List ℚ) (sentiment_data : List SentimentPoint)
    (volatility : ℚ) (_hp : prices ≠ []) :
    calculate_enhanced_confidence prices sentiment_data volatility
        = specBaseConfidence prices sentiment_data volatility ∧
      sentiment_quality prices [] = 0.3 ∧
      35 ≤ calculate_enhanced_confidence prices sentiment_data volatility ∧
      calculate_enhanced_confidence prices sentiment_data volatility ≤ 92 := by
  refine ⟨?_, ?_, le_cec _ _ _, cec_le _ _ _⟩
  · unfold calculate_enhanced_confidence specBaseConfidence
    exact congrArg (fun x => min 92 (max 35 x)) (by ring)
  · simp [sentiment_quality]

/-- Witness for C3 at a concrete 40-point constant price series. -/
theorem claim_C3_witness :
    List.replicate 40 (100 : ℚ) ≠ [] ∧
      (calculate_enhanced_confidence (List.replicate 40 (100 : ℚ)) [] 0
          = specBaseConfidence (List.replicate 40 (100 : ℚ)) [] 0 ∧
        sentiment_quality (List.replicate 40 (100 : ℚ)) [] = 0.3 ∧
        35 ≤ calculate_enhanced_confidence (List.replicate 40 (100 : ℚ)) [] 0 ∧
        calculate_enhanced_confidence (List.replicate 40 (100 : ℚ)) [] 0 ≤ 92) :=
  ⟨by decide, claim_C3 (List.replicate 40 (100 : ℚ)) [] 0 (by decide)⟩

/-- C8: for every price series the computed RSI lies in `[0, 100]`; it
equals `50` whenever fewer than 14 price deltas are available, and
equals `100` whenever (at least 14 deltas being available) the average
loss over the last 14 deltas is `0`. -/
theorem claim_C8 (prices : List ℚ) :
    (0 ≤ calculate_rsi prices ∧ calculate_rsi prices ≤ 100) ∧
      ((priceDeltas prices).length < 14 → calculate_rsi prices = 50) ∧
      (14 ≤ (priceDeltas prices).length →
        qmean (lastN 14 (deltaLosses prices)) = 0 → calculate_rsi prices = 100) := by
  have hlen : (deltaGains prices).length = (priceDeltas prices).length := by
    simp [deltaGains]
  have hgain : 0 ≤ qmean (lastN 14 (deltaGains prices)) := by
    refine qmean_nonneg (fun x hx => ?_)
    have hx' := mem_lastN hx
    rcases List.mem_map.1 hx' with ⟨d, _, rfl⟩
    split_ifs with h
    · exact le_of_lt h
    · exact le_refl 0
  have hloss : 0 ≤ qmean (lastN 14 (deltaLosses prices)) := by
    refine qmean_nonneg (fun x hx => ?_)
    have hx' := mem_lastN hx
    rcases List.mem_map.1 hx' with ⟨d, _, rfl⟩
    split_ifs with h
    · linarith
    · exact le_refl 0
  unfold calculate_rsi
  rw [hlen]
  split_ifs with h1 h2
  · exact ⟨⟨by norm_num, by norm_num⟩, fun hlt => absurd h1 (by omega), fun _ _ => rfl⟩
  · have hrs : 0 ≤ qmean (lastN 14 (deltaGains prices)) / qmean (lastN 14 (deltaLosses prices)) :=
      div_nonneg hgain hloss
    have hdiv_pos : 0 < 100 / (1 + qmean (lastN 14 (deltaGains prices)) / qmean (lastN 14 (deltaLosses prices))) := by
      apply div_pos (by norm_num)
      linarith
    have hdiv_le : 100 / (1 + qmean (lastN 14 (deltaGains prices)) / qmean (lastN 14 (deltaLosses prices))) ≤ 100 := by
      apply div_le_self (by norm_num)
      linarith
    exact ⟨⟨by linarith, by linarith⟩, fun hlt => absurd h1 (by omega),
      fun _ hz => absurd hz h2⟩
  · exact ⟨⟨by norm_num, by norm_num⟩, fun _ => rfl, fun hge => absurd hge h1⟩

/-- Witness for C8: a strictly increasing 15-point series has 14 deltas
and zero average loss, so RSI is exactly 100; a 3-point series has too
few deltas, so RSI is the neutral 50. -/
theorem claim_C8_witness :
    calculate_rsi [1, 2, 3, 4, 5, 6, 7, 8, 9, 10, 11, 12, 13, 14, 15] = 100 ∧
      calculate_rsi [1, 2, 3] = 50 := by
  constructor
  · exact (claim_C8 [1, 2, 3, 4, 5, 6, 7, 8, 9, 10, 11, 12, 13, 14, 15]).2.2
      (by decide)
      (by norm_num [qmean, lastN, deltaLosses, priceDeltas, List.zipWith])
  · exact (claim_C8 [1, 2, 3]).2.1 (by decide)

/-- C4, counterexample to the claim as stated: 50 price points yield 20
windows, which is fewer than `sequence_length + 10 = 40`, yet training
raises no insufficient-data error (the source checks `len(X_price) < 10`,
not `< sequence_length + 10`). -/
theorem claim_C4_counterexample :
    (prepare_enhanced_data (List.replicate 50 (100 : ℚ)) []).1.length
        < sequenceLength + 10 ∧
      trainRaisesInsufficientData (List.replicate 50 (100 : ℚ)) [] = false := by
  constructor
  · decide
  · decide

/-- C4 (amended): training fails with the insufficient-data error exactly
when Feature Preparation produces fewer than 10 windows, equivalently
when the price series has fewer than `sequence_length + 10 = 40`
points. -/
theorem claim_C4_amended (prices : List ℚ) (sentiment_data : List SentimentPoint) :
    trainRaisesInsufficientData prices sentiment_data = true
      ↔ prices.length < 40 := by
  simp only [trainRaisesInsufficientData, prepare_fst_eq, List.length_map,
    List.length_range, decide_eq_true_eq, sequenceLength]
  omega

/-- C5: for every price series of length at least 40 and any sentiment
series, Feature Preparation yields at least (in fact exactly)
`len(prices) - sequence_length` windows; every price window and every
sentiment window has length exactly `sequence_length`, and target `i`
is the scaled price at index `i + sequence_length`. -/
theorem claim_C5 (prices : List ℚ) (sentiment_data : List SentimentPoint)
    (h40 : 40 ≤ prices.length) :
    prices.length - sequenceLength
        ≤ (prepare_enhanced_data prices sentiment_data).1.length ∧
      (prepare_enhanced_data prices sentiment_data).1.length
        = prices.length - sequenceLength ∧
      (∀ w ∈ (prepare_enhanced_data prices sentiment_data).1,
        w.length = sequenceLength) ∧
      (∀ w ∈ (prepare_enhanced_data prices sentiment_data).2.1,
        w.length = sequenceLength) ∧
      (prepare_enhanced_data prices sentiment_data).2.2.1.length
        = prices.length - sequenceLength ∧
      (∀ i < (prepare_enhanced_data prices sentiment_data).2.2.1.length,
        (prepare_enhanced_data prices sentiment_data).2.2.1.getD i 0
          = (scaleSeries prices).getD (i + sequenceLength) 0) := by
  have hlen : (prepare_enhanced_data prices sentiment_data).1.length
      = prices.length - sequenceLength := by
    rw [prepare_fst_eq]
    simp
  have hylen : (prepare_enhanced_data prices sentiment_data).2.2.1.length
      = prices.length - sequenceLength := by
    rw [prepare_y_eq]
    simp
  refine ⟨le_of_eq hlen.symm, hlen,
    priceWindows_length prices sentiment_data h40,
    sentWindows_length prices sentiment_data h40, hylen, ?_⟩
  intro i hi
  rw [hylen] at hi
  rw [prepare_y_eq, getD_range_map _ hi]

/-- Witness for C5 at a concrete 40-point constant price series with no
sentiment data. -/
theorem claim_C5_witness :
    40 ≤ (List.replicate 40 (100 : ℚ)).length ∧
      ((List.replicate 40 (100 : ℚ)).length - sequenceLength
          ≤ (prepare_enhanced_data (List.replicate 40 (100 : ℚ)) []).1.length ∧
        (prepare_enhanced_data (List.replicate 40 (100 : ℚ)) []).1.length
          = (List.replicate 40 (100 : ℚ)).length - sequenceLength ∧
        (∀ w ∈ (prepare_enhanced_data (List.replicate 40 (100 : ℚ)) []).1,
          w.length = sequenceLength) ∧
        (∀ w ∈ (prepare_enhanced_data (List.replicate 40 (100 : ℚ)) []).2.1,
          w.length = sequenceLength) ∧
        (prepare_enhanced_data (List.replicate 40 (100 : ℚ)) []).2.2.1.length
          = (List.replicate 40 (100 : ℚ)).length - sequenceLength ∧
        (∀ i < (prepare_enhanced_data (List.replicate 40 (100 : ℚ)) []).2.2.1.length,
          (prepare_enhanced_data (List.replicate 40 (100 : ℚ)) []).2.2.1.getD i 0
            = (scaleSeries (List.replicate 40 (100 : ℚ))).getD (i + sequenceLength) 0)) :=
  ⟨by decide, claim_C5 (List.replicate 40 (100 : ℚ)) [] (by decide)⟩

/-- C9: for every non-empty sentiment list shorter than the price
series, Feature Preparation appends (never prepends) exactly
`len(prices) - len(sentiment)` neutral `{0, 1, 1}` entries to the
sentiment list (the in-place `append` loop of the source, made explicit
here by returning the final list); the supplied entries stay an
unchanged prefix, the padded list has the price length, and — for a
series accepted at the boundary (≥ 40 points) — every sentiment window
still has the full window length, so windowing stays in range. -/
theorem claim_C9 (prices : List ℚ) (sentiment_data : List SentimentPoint)
    (hne : sentiment_data ≠ []) (hlt : sentiment_data.length < prices.length) :
    (prepare_enhanced_data prices sentiment_data).2.2.2
        = sentiment_data ++
            List.replicate (prices.length - sentiment_data.length) neutralSentiment ∧
      (prepare_enhanced_data prices sentiment_data).2.2.2.length = prices.length ∧
      (prepare_enhanced_data prices sentiment_data).2.2.2.take sentiment_data.length
        = sentiment_data ∧
      (40 ≤ prices.length →
        ∀ w ∈ (prepare_enhanced_data prices sentiment_data).2.1,
          w.length = sequenceLength) := by
  have hpad : (prepare_enhanced_data prices sentiment_data).2.2.2
      = sentiment_data ++
          List.replicate (prices.length - sentiment_data.length) neutralSentiment := by
    rw [prepare_sentiment_eq]
    unfold sentimentFeatures
    rw [if_pos hne]
    rw [if_pos hlt]
    exact padLoop_eq_append _ _
  refine ⟨hpad, ?_, ?_, fun h40 => sentWindows_length prices sentiment_data h40⟩
  · rw [hpad]
    simp
    omega
  · rw [hpad]
    exact List.take_left _ _

/-- Witness for C9: 50 price points with 20 supplied sentiment points
get exactly 30 neutral entries appended at the tail, and all sentiment
windows have the full window length. -/
theorem claim_C9_witness :
    (List.replicate 20 (⟨1/2, 3, 2⟩ : SentimentPoint) ≠ [] ∧
        (List.replicate 20 (⟨1/2, 3, 2⟩ : SentimentPoint)).length
          < (List.replicate 50 (100 : ℚ)).length) ∧
      (prepare_enhanced_data (List.replicate 50 (100 : ℚ))
            (List.replicate 20 (⟨1/2, 3, 2⟩ : SentimentPoint))).2.2.2
        = List.replicate 20 (⟨1/2, 3, 2⟩ : SentimentPoint) ++
            List.replicate 30 neutralSentiment ∧
      (∀ w ∈ (prepare_enhanced_data (List.replicate 50 (100 : ℚ))
            (List.replicate 20 (⟨1/2, 3, 2⟩ : SentimentPoint))).2.1,
        w.length = sequenceLength) := by
  refine ⟨⟨by decide, by decide⟩, ?_, ?_⟩
  · exact (claim_C9 (List.replicate 50 (100 : ℚ))
      (List.replicate 20 (⟨1/2, 3, 2⟩ : SentimentPoint)) (by decide) (by decide)).1
  · exact (claim_C9 (List.replicate 50 (100 : ℚ))
      (List.replicate 20 (⟨1/2, 3, 2⟩ : SentimentPoint)) (by decide) (by decide)).2.2.2
      (by decide)

theorem handler_dummy_branch
    (trainOracle : List ℚ → List SentimentPoint → ℕ → Response)
    (price_data : List ℚ) (prediction_days : ℕ) (h40 : 40 ≤ price_data.length) :
    prediction_service_handler trainOracle price_data [] prediction_days
      = { statusCode := 200
          success := some true
          error := none
          predictions := (List.range prediction_days).map (fun (i : ℕ) =>
            { predicted_price := 100 + (i : ℚ) * 2
              upper_bound := 100 + (i : ℚ) * 2 + 5
              lower_bound := 100 + (i : ℚ) * 2 - 5
              confidence := 75
              sentiment_factor := 0 }) } := by
  have hne : ¬(price_data = [] ∨ price_data.length < 40) := by
    rintro (h | h)
    · rw [h] at h40
      simp at h40
    · omega
  unfold prediction_service_handler
  rw [if_neg hne, if_neg (fun h => h rfl)]

/-- C10: for every request to the `prediction_service` Lambda handler
carrying at least 40 price points but empty sentiment data, the handler
returns status 200 with `success: true` and the hard-coded dummy
forecast — day `i` has `predicted_price = 100 + 2i`,
`upper_bound = 105 + 2i`, `lower_bound = 95 + 2i`, confidence `75.0`,
sentiment factor `0.0` — without invoking the training pipeline (the
`trainOracle` is universally quantified and never consulted) and
without using the supplied price values (any other valid price list
yields the identical response). -/
theorem claim_C10
    (trainOracle : List ℚ → List SentimentPoint → ℕ → Response)
    (price_data : List ℚ) (prediction_days : ℕ) (h40 : 40 ≤ price_data.length) :
    (prediction_service_handler trainOracle price_data [] prediction_days).statusCode
        = 200 ∧
      (prediction_service_handler trainOracle price_data [] prediction_days).success
        = some true ∧
      (prediction_service_handler trainOracle price_data [] prediction_days).predictions.length
        = prediction_days ∧
      (∀ i < prediction_days,
        (prediction_service_handler trainOracle price_data [] prediction_days).predictions.getD
            i { predicted_price := 0, upper_bound := 0, lower_bound := 0,
                confidence := 0, sentiment_factor := 0 }
          = { predicted_price := 100 + 2 * (i : ℚ)
              upper_bound := 105 + 2 * (i : ℚ)
              lower_bound := 95 + 2 * (i : ℚ)
              confidence := 75
              sentiment_factor := 0 }) ∧
      (∀ price2 : List ℚ, 40 ≤ price2.length →
        prediction_service_handler trainOracle price2 [] prediction_days
          = prediction_service_handler trainOracle price_data [] prediction_days) := by
  rw [handler_dummy_branch trainOracle price_data prediction_days h40]
  refine ⟨rfl, rfl, by simp, ?_, ?_⟩
  · intro i hi
    rw [getD_range_map _ hi]
    simp only [ForecastDay.mk.injEq]
    exact ⟨by ring, by ring, by ring, trivial, trivial⟩
  · intro price2 h2
    rw [handler_dummy_branch trainOracle price2 prediction_days h2]

/-- Witness for C10 at a concrete 40-point price series, 7 forecast
days, and an arbitrary concrete training oracle. -/
theorem claim_C10_witness :
    40 ≤ (List.replicate 40 (100 : ℚ)).length ∧
      (prediction_service_handler (fun _ _ _ => ⟨0, none, none, []⟩)
          (List.replicate 40 (100 : ℚ)) [] 7).statusCode = 200 ∧
      (prediction_service_handler (fun _ _ _ => ⟨0, none, none, []⟩)
          (List.replicate 40 (100 : ℚ)) [] 7).success = some true ∧
      (prediction_service_handler (fun _ _ _ => ⟨0, none, none, []⟩)
          (List.replicate 40 (100 : ℚ)) [] 7).predictions.length = 7 :=
  ⟨by decide,
   (claim_C10 (fun _ _ _ => ⟨0, none, none, []⟩)
     (List.replicate 40 (100 : ℚ)) 7 (by decide)).1,
   (claim_C10 (fun _ _ _ => ⟨0, none, none, []⟩)
     (List.replicate 40 (100 : ℚ)) 7 (by decide)).2.1,
   (claim_C10 (fun _ _ _ => ⟨0, none, none, []⟩)
     (List.replicate 40 (100 : ℚ)) 7 (by decide)).2.2.1⟩

/-- C6, counterexample to the claim as stated: the `prediction_lambda`
handler — one of the cited prediction entry points — performs no
minimum-length validation: a request with only 5 price points still
gets status 200 with `success: true` and a 7-day forecast payload. -/
theorem claim_C6_counterexample :
    (List.replicate 5 (100 : ℚ)).length < 40 ∧
      (prediction_lambda_handler ⟨0, 0, fun _ => 0⟩ "AAPL"
          (List.replicate 5 (100 : ℚ)) [] 7).statusCode = 200 ∧
      (prediction_lambda_handler ⟨0, 0, fun _ => 0⟩ "AAPL"
          (List.replicate 5 (100 : ℚ)) [] 7).success = some true ∧
      (prediction_lambda_handler ⟨0, 0, fun _ => 0⟩ "AAPL"
          (List.replicate 5 (100 : ℚ)) [] 7).predictions.length = 7 := by
  refine ⟨by decide, rfl, rfl, ?_⟩
  simp [prediction_lambda_handler]

/-- C6 (amended): for requests with fewer than 40 price points, the
`prediction_service` handler returns a 400 validation error with
`success: false` and no forecast before any model work, and the
`sentiment_service` enhanced endpoint returns a 400 validation error
(its body carries only an error message, no `success` field); the
`prediction_lambda` handler, however, performs no such validation and
returns status 200 with `success: true` regardless. -/
theorem claim_C6_amended
    (trainOracle pipelineOracle : List ℚ → List SentimentPoint → ℕ → Response)
    (rng : LambdaRng) (ticker : String) (price_data : List ℚ)
    (sentiment_data : List SentimentPoint) (prediction_days : ℕ)
    (h : price_data.length < 40) :
    (prediction_service_handler trainOracle price_data sentiment_data
        prediction_days).statusCode = 400 ∧
      (prediction_service_handler trainOracle price_data sentiment_data
        prediction_days).success = some false ∧
      (prediction_service_handler trainOracle price_data sentiment_data
        prediction_days).predictions = [] ∧
      (predict_price_enhanced_endpoint pipelineOracle price_data sentiment_data
        prediction_days).statusCode = 400 ∧
      (predict_price_enhanced_endpoint pipelineOracle price_data sentiment_data
        prediction_days).success = none ∧
      (prediction_lambda_handler rng ticker price_data sentiment_data
        prediction_days).statusCode = 200 ∧
      (prediction_lambda_handler rng ticker price_data sentiment_data
        prediction_days).success = some true := by
  have h1 : prediction_service_handler trainOracle price_data sentiment_data
      prediction_days
      = { statusCode := 400
          success := some false
          error := some "Need at least 40 days of price data for LSTM training"
          predictions := [] } := by
    unfold prediction_service_handler
    rw [if_pos (Or.inr h)]
  have h2 : predict_price_enhanced_endpoint pipelineOracle price_data
      sentiment_data prediction_days
      = { statusCode := 400
          success := none
          error := some "Need at least 40 days of price data for LSTM training"
          predictions := [] } := by
    unfold predict_price_enhanced_endpoint
    rw [if_pos h]
  rw [h1, h2]
  exact ⟨rfl, rfl, rfl, rfl, rfl, rfl, rfl⟩

/-- Witness for C6 (amended) at a concrete 5-point price series. -/
theorem claim_C6_witness :
    (List.replicate 5 (100 : ℚ)).length < 40 ∧
      ((prediction_service_handler (fun _ _ _ => ⟨0, none, none, []⟩)
          (List.replicate 5 (100 : ℚ)) [] 7).statusCode = 400 ∧
        (prediction_service_handler (fun _ _ _ => ⟨0, none, none, []⟩)
          (List.replicate 5 (100 : ℚ)) [] 7).success = some false ∧
        (prediction_service_handler (fun _ _ _ => ⟨0, none, none, []⟩)
          (List.replicate 5 (100 : ℚ)) [] 7).predictions = [] ∧
        (predict_price_enhanced_endpoint (fun _ _ _ => ⟨0, none, none, []⟩)
          (List.replicate 5 (100 : ℚ)) [] 7).statusCode = 400 ∧
        (predict_price_enhanced_endpoint (fun _ _ _ => ⟨0, none, none, []⟩)
          (List.replicate 5 (100 : ℚ)) [] 7).success = none ∧
        (prediction_lambda_handler ⟨1, 1, fun _ => 1⟩ "MSFT"
          (List.replicate 5 (100 : ℚ)) [] 7).statusCode = 200 ∧
        (prediction_lambda_handler ⟨1, 1, fun _ => 1⟩ "MSFT"
          (List.replicate 5 (100 : ℚ)) [] 7).success = some true) :=
  ⟨by decide,
   claim_C6_amended (fun _ _ _ => ⟨0, none, none, []⟩)
     (fun _ _ _ => ⟨0, none, none, []⟩) ⟨1, 1, fun _ => 1⟩ "MSFT"
     (List.replicate 5 (100 : ℚ)) [] 7 (by decide)⟩

theorem decayLast_concat (l : List Feature3) (s n b d : ℚ) :
    decayLast (l ++ [(s, n, b)]) d = l ++ [(s * d, n, b)] := by
  unfold decayLast
  rw [List.getLast?_concat, List.dropLast_concat]

/-- C7, counterexample to the claim as stated: iterating the code's
step differs from iterating the step the claim describes (decaying the
*last real* entry by `0.9^(i+1)` each day).  From a window of three
score-1 entries, after two days the code's window head keeps score
`0.9` (the decay on day 1 hit the appended neutral entry, a no-op),
while the claimed step would have decayed it again to `0.729`. -/
theorem claim_C7_counterexample :
    stateAfter (fun _ _ => 0) ([0, 0, 0], [(1, 1, 1), (1, 1, 1), (1, 1, 1)]) 2
      ≠ claimStateAfter (fun _ _ => 0)
          ([0, 0, 0], [(1, 1, 1), (1, 1, 1), (1, 1, 1)]) 2 := by
  intro h
  have h1 := congrArg (fun st => (st.2.headD (0, 0, 0)).1) h
  norm_num [stateAfter, stepState, claimStateAfter, claimStepState,
    decayLast, decayAt, List.dropLast, List.getLast?] at h1

/-- C7 (amended): each loop iteration slides the price window by
dropping its oldest value and appending the day's prediction, and
multiplies the sentiment-score channel of the *final slot* of the
current sentiment window by `0.9^(day+1)` before sliding it and
appending a neutral `(0, 1, 1)` entry.  Only on day 0 is that final
slot the last real entry: from day 1 on it is a previously appended
neutral entry whose score is `0`, so the decay is a no-op and the
sentiment window update is pure sliding. -/
theorem claim_C7_amended (model : List ℚ → List Feature3 → ℚ)
    (ps : List ℚ) (ss : List Feature3) :
    (stateAfter model (ps, ss) 1).2
        = (decayLast ss ((0.9 : ℚ) ^ (0 + 1))).tail ++ [(0, 1, 1)] ∧
      (∀ i : ℕ, (stateAfter model (ps, ss) (i + 1)).1
        = (stateAfter model (ps, ss) i).1.tail
            ++ [model (stateAfter model (ps, ss) i).1
                  (stateAfter model (ps, ss) i).2]) ∧
      (∀ i : ℕ, 1 ≤ i →
        (stateAfter model (ps, ss) i).2.getLast? = some (0, 1, 1) ∧
        decayLast (stateAfter model (ps, ss) i).2 ((0.9 : ℚ) ^ (i + 1))
          = (stateAfter model (ps, ss) i).2 ∧
        (stateAfter model (ps, ss) (i + 1)).2
          = (stateAfter model (ps, ss) i).2.tail ++ [(0, 1, 1)]) := by
  refine ⟨rfl, fun i => rfl, ?_⟩
  intro i hi
  obtain ⟨j, rfl⟩ : ∃ j, i = j + 1 := ⟨i - 1, by omega⟩
  have hshape : (stateAfter model (ps, ss) (j + 1)).2
      = (decayLast (stateAfter model (ps, ss) j).2 ((0.9 : ℚ) ^ (j + 1))).tail
          ++ [(0, 1, 1)] := rfl
  have hnoop : ∀ d : ℚ,
      decayLast (stateAfter model (ps, ss) (j + 1)).2 d
        = (stateAfter model (ps, ss) (j + 1)).2 := by
    intro d
    rw [hshape, decayLast_concat, zero_mul]
  have hstep : (stateAfter model (ps, ss) (j + 1 + 1)).2
      = (decayLast (stateAfter model (ps, ss) (j + 1)).2
          ((0.9 : ℚ) ^ (j + 1 + 1))).tail ++ [(0, 1, 1)] := rfl
  refine ⟨?_, hnoop _, ?_⟩
  · rw [hshape]
    exact List.getLast?_concat _
  · rw [hstep, hnoop]

/-- Witness for C7 (amended) at a concrete model, price window and
3-entry sentiment window, instantiating the `1 ≤ i` part at `i = 1`. -/
theorem claim_C7_witness :
    (stateAfter (fun _ _ => (0 : ℚ)) ([0], [(1, 1, 1)]) 1).2.getLast?
      = some (0, 1, 1) :=
  ((claim_C7_amended (fun _ _ => 0) [0] [(1, 1, 1)]).2.2 1 le_rfl).1

/-- C1, counterexample to the claim as stated: the confidence-bounds
factor is always at least 1 here (it evaluates to `1.9`), yet with a
(nonpositive) predicted price of `-100` — the model output being an
unconstrained network value — the generated day has
`upper_bound = -190 < predicted_price = -100`, violating the claimed
sandwich. -/
theorem claim_C1_counterexample :
    ((generateResults (List.replicate 40 100) [] 0 [-100] 1).getD 0
        ⟨0, 0, 0, 0, 0⟩).upper_bound
      < ((generateResults (List.replicate 40 100) [] 0 [-100] 1).getD 0
        ⟨0, 0, 0, 0, 0⟩).predicted_price := by
  have hf1 : Int.fract ((-19000 : ℚ)) = 0 := by
    rw [show (-19000 : ℚ) = ((-19000 : ℤ) : ℚ) by norm_num, Int.fract_intCast]
  have hf2 : Int.fract ((-10000 : ℚ)) = 0 := by
    rw [show (-10000 : ℚ) = ((-10000 : ℤ) : ℚ) by norm_num, Int.fract_intCast]
  norm_num [generateResults, sentimentConfidenceBoost,
    calculate_enhanced_confidence, price_data_quality, volatility_factor,
    sentiment_quality, qmean, lastN, List.sum_replicate, List.drop_replicate,
    smul_eq_mul, pyRound, roundHalfEven, List.range_succ, hf1, hf2]

/-- C1 (amended): for every generated forecast day whose (model-driven)
predicted value is nonnegative, `upper_bound ≥ predicted_price ≥
lower_bound` — the confidence-bounds factor is provably at least 1, and
the sandwich then holds for nonnegative prices; for a negative model
output the inequalities flip. -/
theorem claim_C1_amended (recent_prices : List ℚ)
    (recent_sentiment_data : List SentimentPoint) (volatility : ℚ)
    (actual_predictions : List ℚ) (days_ahead i : ℕ) (hi : i < days_ahead)
    (hp : 0 ≤ actual_predictions.getD i 0) :
    ((generateResults recent_prices recent_sentiment_data volatility
          actual_predictions days_ahead).getD i ⟨0, 0, 0, 0, 0⟩).lower_bound
        ≤ ((generateResults recent_prices recent_sentiment_data volatility
          actual_predictions days_ahead).getD i ⟨0, 0, 0, 0, 0⟩).predicted_price ∧
      ((generateResults recent_prices recent_sentiment_data volatility
          actual_predictions days_ahead).getD i ⟨0, 0, 0, 0, 0⟩).predicted_price
        ≤ ((generateResults recent_prices recent_sentiment_data volatility
          actual_predictions days_ahead).getD i ⟨0, 0, 0, 0, 0⟩).upper_bound := by
  unfold generateResults
  rw [getD_range_map _ hi]
  dsimp only
  have h92 := cec_le recent_prices recent_sentiment_data volatility
  have h35 := le_cec recent_prices recent_sentiment_data volatility
  have hb0 := boost_nonneg recent_sentiment_data
  have hb2 := boost_le recent_sentiment_data
  have htd0 : (0 : ℚ) < (0.95 : ℚ) ^ i := by positivity
  have htd1 : (0.95 : ℚ) ^ i ≤ 1 := pow_le_one₀ (by norm_num) (by norm_num)
  have hcectd :
      calculate_enhanced_confidence recent_prices recent_sentiment_data volatility
          * (0.95 : ℚ) ^ i ≤ 92 * 1 :=
    mul_le_mul h92 htd1 htd0.le (by norm_num)
  have hf : 1 ≤
      (1 - (calculate_enhanced_confidence recent_prices recent_sentiment_data
          volatility * (0.95 : ℚ) ^ i
        + sentimentConfidenceBoost recent_sentiment_data) / 100) * 2 + 1 := by
    have hbc : calculate_enhanced_confidence recent_prices recent_sentiment_data
        volatility * (0.95 : ℚ) ^ i
        + sentimentConfidenceBoost recent_sentiment_data ≤ 100 := by
      norm_num at hb2
      linarith
    linarith
  constructor
  · exact pyRound_mono 2 (div_le_self hp hf)
  · exact pyRound_mono 2 (le_mul_of_one_le_right hp hf)

/-- Witness for C1 (amended) at a concrete 40-point price series and a
nonnegative model output. -/
theorem claim_C1_witness :
    (0 < 1 ∧ (0 : ℚ) ≤ [(50 : ℚ)].getD 0 0) ∧
      (((generateResults (List.replicate 40 100) [] 0 [(50 : ℚ)] 1).getD 0
            ⟨0, 0, 0, 0, 0⟩).lower_bound
          ≤ ((generateResults (List.replicate 40 100) [] 0 [(50 : ℚ)] 1).getD 0
            ⟨0, 0, 0, 0, 0⟩).predicted_price ∧
        ((generateResults (List.replicate 40 100) [] 0 [(50 : ℚ)] 1).getD 0
            ⟨0, 0, 0, 0, 0⟩).predicted_price
          ≤ ((generateResults (List.replicate 40 100) [] 0 [(50 : ℚ)] 1).getD 0
            ⟨0, 0, 0, 0, 0⟩).upper_bound) :=
  ⟨⟨by norm_num, by simp⟩,
   claim_C1_amended (List.replicate 40 100) [] 0 [(50 : ℚ)] 1 0 (by norm_num)
     (by simp)⟩

/-- C2, counterexample to the claim as stated: with a 40-day constant
price series and 40 sentiment entries of score 1 (so the boost term
saturates), the reported confidence for day 0 is `76.2` — the code adds
`min(0.2, |mean| * 0.3) = 0.2` directly — while the claimed formula
`base_confidence * 0.95^0 + min(0.2, |mean| * 0.3) * 100` gives `96`. -/
theorem claim_C2_counterexample :
    ((generateResults (List.replicate 40 100)
          (List.replicate 40 ⟨1, 10, 1⟩) 0 [0] 1).getD 0
        ⟨0, 0, 0, 0, 0⟩).confidence
      ≠ calculate_enhanced_confidence (List.replicate 40 100)
            (List.replicate 40 ⟨1, 10, 1⟩) 0 * (0.95 : ℚ) ^ (0 : ℕ)
          + min 0.2
              (|qmean ((lastN 7 (List.replicate 40
                  (⟨1, 10, 1⟩ : SentimentPoint))).map
                    (fun s => s.sentiment_score))| * 0.3) * 100 := by
  have hf1 : Int.fract ((762 : ℚ)) = 0 := by
    rw [show (762 : ℚ) = ((762 : ℤ) : ℚ) by norm_num, Int.fract_intCast]
  norm_num [generateResults, sentimentConfidenceBoost,
    calculate_enhanced_confidence, price_data_quality, volatility_factor,
    sentiment_quality, qmean, lastN, List.sum_replicate, List.drop_replicate,
    List.map_replicate, smul_eq_mul, pyRound, roundHalfEven, List.range_succ, hf1]

/-- C2 (amended): for every forecast run with non-empty sentiment data,
the confidence reported for day `i` is
`round(base_confidence * 0.95^i + sentiment_confidence_boost, 1)` where
`sentiment_confidence_boost = min(0.2, |mean of last-7 sentiment scores|
* 0.3)` is added directly (at most 0.2 confidence points) and
identically on every day (not decayed with `i`); the ×100-scaled value
is reported separately as `sentiment_factor`. -/
theorem claim_C2_amended (recent_prices : List ℚ)
    (recent_sentiment_data : List SentimentPoint) (volatility : ℚ)
    (actual_predictions : List ℚ) (days_ahead i : ℕ) (hi : i < days_ahead)
    (hs : recent_sentiment_data ≠ []) :
    ((generateResults recent_prices recent_sentiment_data volatility
          actual_predictions days_ahead).getD i ⟨0, 0, 0, 0, 0⟩).confidence
        = pyRound 1 (calculate_enhanced_confidence recent_prices
              recent_sentiment_data volatility * (0.95 : ℚ) ^ i
            + min 0.2
                (|qmean ((lastN 7 recent_sentiment_data).map
                    (fun s => s.sentiment_score))| * 0.3)) ∧
      ((generateResults recent_prices recent_sentiment_data volatility
          actual_predictions days_ahead).getD i ⟨0, 0, 0, 0, 0⟩).sentiment_factor
        = pyRound 1 (min 0.2
              (|qmean ((lastN 7 recent_sentiment_data).map
                  (fun s => s.sentiment_score))| * 0.3) * 100) := by
  unfold generateResults
  rw [getD_range_map _ hi]
  unfold sentimentConfidenceBoost
  rw [if_pos hs]
  exact ⟨rfl, rfl⟩

/-- Witness for C2 (amended) at a concrete price series and a single
sentiment entry. -/
theorem claim_C2_witness :
    (0 < 1 ∧ [(⟨1/2, 5, 1⟩ : SentimentPoint)] ≠ []) ∧
      (((generateResults (List.replicate 40 100) [⟨1/2, 5, 1⟩] 0 [0] 1).getD 0
            ⟨0, 0, 0, 0, 0⟩).confidence
          = pyRound 1 (calculate_enhanced_confidence (List.replicate 40 100)
                [⟨1/2, 5, 1⟩] 0 * (0.95 : ℚ) ^ (0 : ℕ)
              + min 0.2
                  (|qmean ((lastN 7 [(⟨1/2, 5, 1⟩ : SentimentPoint)]).map
                      (fun s => s.sentiment_score))| * 0.3)) ∧
        ((generateResults (List.replicate 40 100) [⟨1/2, 5, 1⟩] 0 [0] 1).getD 0
            ⟨0, 0, 0, 0, 0⟩).sentiment_factor
          = pyRound 1 (min 0.2
                (|qmean ((lastN 7 [(⟨1/2, 5, 1⟩ : SentimentPoint)]).map
                    (fun s => s.sentiment_score))| * 0.3) * 100)) :=
  ⟨⟨by norm_num, by simp⟩,
   claim_C2_amended (List.replicate 40 100) [⟨1/2, 5, 1⟩] 0 [0] 1 0
     (by norm_num) (by simp)⟩

end MarketSense
